import Mathlib

/-!
Verification of the sx-bet-quickstart order-protocol engine.

The JavaScript sources are shallowly embedded as Lean definitions:
* BigInt arithmetic becomes `ℤ` with `Int.tdiv` (JavaScript BigInt division
  truncates toward zero, and division by zero raises a RangeError, modelled
  with `Except`);
* IEEE-double arithmetic that the code uses only for the final cosmetic
  rendering (`toFixed(2)`) is modelled by exact rational arithmetic with the
  ECMAScript rounding rule (nearest, ties away from zero for positive values);
* the external signer, keccak-256 and the EIP-712 digest are abstracted as
  function parameters, as the repository delegates them to the ethers library;
* per-call randomness (salts, timestamps) is passed in as explicit arguments.
-/

namespace SXBet

/-- JavaScript runtime error raised on the embedded code paths: a BigInt
division by zero raises a RangeError. -/
inductive JsError where
  | rangeError
deriving DecidableEq

/-- fill.js `calculatePotentialPayout`: BigInt computation
`betAmount * 10^20 / (10^20 - percentageOdds)`; BigInt division truncates
toward zero and raises RangeError when the denominator is zero. -/
def calculatePotentialPayout (betAmount percentageOdds : ℤ) : Except JsError ℤ :=
  let base : ℤ := 10 ^ 20
  let denominator : ℤ := base - percentageOdds
  if denominator = 0 then Except.error JsError.rangeError
  else Except.ok ((betAmount * base).tdiv denominator)

/-- fill.js `calculateFillAmount`: BigInt computation
`takerBetAmount * percentageOdds / (10^20 - percentageOdds)`. -/
def calculateFillAmount (takerBetAmount percentageOdds : ℤ) : Except JsError ℤ :=
  let base : ℤ := 10 ^ 20
  let denominator : ℤ := base - percentageOdds
  if denominator = 0 then Except.error JsError.rangeError
  else Except.ok ((takerBetAmount * percentageOdds).tdiv denominator)

/-- Two-digit zero-padded decimal rendering of a value below 100. -/
def twoDigits (n : ℕ) : String :=
  (if n < 10 then "0" else "") ++ toString n

/-- Renders a nonnegative number of cents as a decimal string with exactly two
fractional digits. -/
def centsRender (cents : ℕ) : String :=
  toString (cents / 100) ++ "." ++ twoDigits (cents % 100)

/-- Model of ECMAScript `Number.prototype.toFixed(2)` applied to the exact
value `num / den` of a fraction with positive denominator: the sign is split
off, then the magnitude is rounded to the nearest hundredth with ties going to
the larger candidate (round half away from zero); for a magnitude `a / den`
that count of hundredths is `⌊a / den * 100 + 1 / 2⌋ = (200 * a + den) / (2 * den)`
(flooring integer division).  The source applies `toFixed` to IEEE doubles;
the model computes on the exact value, which agrees with the double
computation whenever the value is not within double rounding error of a
half-cent tie (all concrete inputs used in the theorems below are far from
ties). -/
def jsToFixed2 (num den : ℤ) : String :=
  if num < 0 then "-" ++ centsRender ((200 * (-num) + den).ediv (2 * den)).toNat
  else centsRender ((200 * num + den).ediv (2 * den)).toNat

/-- formatter.js `calculateTakerOdds`:
`impliedOdds = 1 - percentageOdds / 1e20`, and the result is
`(1 / impliedOdds).toFixed(2)` when `impliedOdds > 0`, else the string "N/A".
As exact values, `impliedOdds = (10^20 - percentageOdds) / 10^20`, so its sign
is the sign of `10^20 - percentageOdds` and
`1 / impliedOdds = 10^20 / (10^20 - percentageOdds)`. -/
def calculateTakerOdds (percentageOdds : ℤ) : String :=
  let impliedOddsNum : ℤ := 10 ^ 20 - percentageOdds
  if 0 < impliedOddsNum then jsToFixed2 (10 ^ 20) impliedOddsNum else "N/A"

/-- formatter.js `convertToNominalUnits`: divides by `10^decimals` and renders
with `toFixed(2)`.  The source gives `decimals` the default value 6; callers
in this file pass 6 explicitly. -/
def convertToNominalUnits (ethereumAmount : ℤ) (decimals : ℕ) : String :=
  jsToFixed2 ethereumAmount (10 ^ decimals)

/-- The BigInt part of formatter.js `calculateRemainingTakerSpace`:
`(totalBetSize - fillAmount) * 1e20 / percentageOdds - (totalBetSize - fillAmount)`,
with BigInt truncating division (RangeError at `percentageOdds = 0`). -/
def remainingTakerSpaceRaw (totalBetSize fillAmount percentageOdds : ℤ) :
    Except JsError ℤ :=
  if percentageOdds = 0 then Except.error JsError.rangeError
  else
    Except.ok (((totalBetSize - fillAmount) * 10 ^ 20).tdiv percentageOdds -
      (totalBetSize - fillAmount))

/-- formatter.js `calculateRemainingTakerSpace`: the raw BigInt value above,
converted to nominal units (`Number(remaining)` then division by `10^6` and
`toFixed(2)`; the double conversion is exact below `2^53` and is modelled by
the exact value). -/
def calculateRemainingTakerSpace (totalBetSize fillAmount percentageOdds : ℤ) :
    Except JsError String :=
  (remainingTakerSpaceRaw totalBetSize fillAmount percentageOdds).map
    (fun remaining => convertToNominalUnits remaining 6)

/-! ### Order creation: packed encoding, hashing and personal-message signing
(post.js) -/

/-- The signable fields of an order as built by post.js `createOrder`:
`marketHash` is a 32-byte value and the three addresses are 20-byte values,
kept here as byte lists; the numeric fields are the arbitrary-precision
unsigned integers passed to the packed encoder. -/
structure Order where
  marketHash : List ℕ
  baseToken : List ℕ
  totalBetSize : ℕ
  percentageOdds : ℕ
  expiry : ℕ
  salt : ℕ
  maker : List ℕ
  executor : List ℕ
  isMakerBettingOutcomeOne : Bool
deriving DecidableEq

/-- Big-endian 32-byte encoding of an unsigned integer, the `uint256` case of
the solidity packed encoding. -/
def uint256BE (n : ℕ) : List ℕ :=
  (List.range 32).map (fun i => n / 256 ^ (31 - i) % 256)

/-- The `bool` case of the solidity packed encoding: one byte, 0 or 1. -/
def boolByte (b : Bool) : ℕ :=
  if b then 1 else 0

/-- The byte string hashed by post.js `createOrderHash`:
`ethers.solidityPackedKeccak256` over the type list
`[bytes32, address, uint256, uint256, uint256, uint256, address, address, bool]`
tightly concatenates the encodings of `marketHash`, `baseToken`,
`totalBetSize`, `percentageOdds`, `expiry`, `salt`, `maker`, `executor`,
`isMakerBettingOutcomeOne`, in that order, with no padding between fields. -/
def solidityPackedOrder (o : Order) : List ℕ :=
  o.marketHash ++ o.baseToken ++ uint256BE o.totalBetSize ++
    uint256BE o.percentageOdds ++ uint256BE o.expiry ++ uint256BE o.salt ++
    o.maker ++ o.executor ++ [boolByte o.isMakerBettingOutcomeOne]

/-- post.js `createOrderHash`: keccak-256 (abstracted as a parameter, the
repository delegates it to ethers) of the packed order encoding. -/
def createOrderHash (keccak256 : List ℕ → List ℕ) (o : Order) : List ℕ :=
  keccak256 (solidityPackedOrder o)

/-- ASCII bytes of a string. -/
def asciiBytes (s : String) : List ℕ :=
  s.toList.map Char.toNat

/-- The ethers personal-message header for a message of `len` bytes. -/
def ethSignedMessageHeader (len : ℕ) : List ℕ :=
  asciiBytes ("\x19Ethereum Signed Message:\n" ++ toString len)

/-- ethers `Wallet.signMessage` on a byte array (the external signer's
personalMessage mode, spec section 6): ECDSA (abstracted as `ecdsaSign`) over
the keccak-256 hash of the personal-message header followed by the message
bytes. -/
def signMessage (keccak256 : List ℕ → List ℕ) (ecdsaSign : List ℕ → ℕ)
    (message : List ℕ) : ℕ :=
  ecdsaSign (keccak256 (ethSignedMessageHeader message.length ++ message))

/-- post.js `signOrder`: the signature attached to the returned order is
`wallet.signMessage(createOrderHash(order))`. -/
def signOrderSignature (keccak256 : List ℕ → List ℕ) (ecdsaSign : List ℕ → ℕ)
    (o : Order) : ℕ :=
  signMessage keccak256 ecdsaSign (createOrderHash keccak256 o)

/-! ### Fill: EIP-712 typed-data payload and signing (fill.js) -/

/-- One field of an EIP-712 type definition: a field name and a type name. -/
structure TypeField where
  name : String
  type : String
deriving DecidableEq

/-- The EIP-712 domain object built by fill.js: name, version, chain id and
verifying contract. -/
structure FillDomain where
  name : String
  version : String
  chainId : ℕ
  verifyingContract : String
deriving DecidableEq

/-- One nested order struct of the fill message, mirroring the API order
fields passed through by fill.js `createSigningPayload`. -/
structure OrderMsg where
  marketHash : String
  baseToken : String
  totalBetSize : ℤ
  percentageOdds : ℤ
  expiry : ℤ
  salt : ℤ
  maker : String
  executor : String
  isMakerBettingOutcomeOne : Bool
deriving DecidableEq

/-- The `fills` value of the fill message (type `FillObject`). -/
structure FillObjectMsg where
  makerSigs : List String
  orders : List OrderMsg
  takerAmounts : List ℤ
  fillSalt : ℤ
  beneficiary : String
  beneficiaryType : ℕ
  cashOutTarget : String
deriving DecidableEq

/-- The fill message of primary type `Details`: six placeholder string fields
plus the nested `fills` object. -/
structure DetailsMsg where
  action : String
  market : String
  betting : String
  stake : String
  odds : String
  returning : String
  fills : FillObjectMsg
deriving DecidableEq

/-- An order as fetched from the orders API and consumed by fill.js: string
fields are passed through to the typed-data message verbatim, numeric fields
are the arbitrary-precision integers behind the decimal strings. -/
structure ApiOrder where
  orderHash : String
  marketHash : String
  baseToken : String
  totalBetSize : ℤ
  percentageOdds : ℤ
  expiry : ℤ
  salt : ℤ
  maker : String
  executor : String
  isMakerBettingOutcomeOne : Bool
  signature : String
deriving DecidableEq

/-- The `EIP712Domain` type definition in fill.js `createSigningPayload`. -/
def fillDomainTypeFields : List TypeField :=
  [⟨"name", "string"⟩, ⟨"version", "string"⟩, ⟨"chainId", "uint256"⟩,
    ⟨"verifyingContract", "address"⟩]

/-- The `Details` type definition in fill.js `createSigningPayload`. -/
def detailsTypeFields : List TypeField :=
  [⟨"action", "string"⟩, ⟨"market", "string"⟩, ⟨"betting", "string"⟩,
    ⟨"stake", "string"⟩, ⟨"odds", "string"⟩, ⟨"returning", "string"⟩,
    ⟨"fills", "FillObject"⟩]

/-- The `FillObject` type definition in fill.js `createSigningPayload`. -/
def fillObjectTypeFields : List TypeField :=
  [⟨"orders", "Order[]"⟩, ⟨"makerSigs", "bytes[]"⟩,
    ⟨"takerAmounts", "uint256[]"⟩, ⟨"fillSalt", "uint256"⟩,
    ⟨"beneficiary", "address"⟩, ⟨"beneficiaryType", "uint8"⟩,
    ⟨"cashOutTarget", "bytes32"⟩]

/-- The `Order` type definition in fill.js `createSigningPayload`. -/
def orderTypeFields : List TypeField :=
  [⟨"marketHash", "bytes32"⟩, ⟨"baseToken", "address"⟩,
    ⟨"totalBetSize", "uint256"⟩, ⟨"percentageOdds", "uint256"⟩,
    ⟨"expiry", "uint256"⟩, ⟨"salt", "uint256"⟩, ⟨"maker", "address"⟩,
    ⟨"executor", "address"⟩, ⟨"isMakerBettingOutcomeOne", "bool"⟩]

/-- The `types` object of the fill signing payload, in source order. -/
def fillTypes : List (String × List TypeField) :=
  [("EIP712Domain", fillDomainTypeFields), ("Details", detailsTypeFields),
    ("FillObject", fillObjectTypeFields), ("Order", orderTypeFields)]

/-- The subset of type definitions that fill.js `fillOrder` passes to
`wallet.signTypedData` (ethers derives the domain type from the domain
object itself). -/
def fillTypesPassed : List (String × List TypeField) :=
  [("Details", detailsTypeFields), ("FillObject", fillObjectTypeFields),
    ("Order", orderTypeFields)]

/-- `ethers.ZeroAddress`. -/
def zeroAddress : String :=
  "0x0000000000000000000000000000000000000000"

/-- `ethers.ZeroHash`. -/
def zeroHash : String :=
  "0x0000000000000000000000000000000000000000000000000000000000000000"

/-- The fill-order constants of fill.js (`CONSTANTS`). -/
def eip712FillHasher : String := "0x845a2Da2D70fEDe8474b1C8518200798c60aC364"

/-- The EIP-712 domain built by fill.js from its constants. -/
def sxBetFillDomain : FillDomain :=
  { name := "SX Bet", version := "6.0", chainId := 4162,
    verifyingContract := eip712FillHasher }

/-- The complete object returned by fill.js `createSigningPayload`. -/
structure FillSigningPayload where
  types : List (String × List TypeField)
  primaryType : String
  domain : FillDomain
  message : DetailsMsg
  fillAmount : ℤ
  fillSalt : ℤ
deriving DecidableEq

/-- fill.js `createSigningPayload`: computes the fill amount (which raises if
the BigInt denominator `10^20 - percentageOdds` is zero) and assembles the
typed-data payload.  The random `fillSalt` that the source draws from 32
random bytes is passed in as an argument. -/
def createSigningPayload (order : ApiOrder) (takerBetAmount fillSalt : ℤ) :
    Except JsError FillSigningPayload :=
  match calculateFillAmount takerBetAmount order.percentageOdds with
  | Except.error e => Except.error e
  | Except.ok fillAmount =>
    Except.ok
      { types := fillTypes
        primaryType := "Details"
        domain := sxBetFillDomain
        message :=
          { action := "N/A", market := "N/A", betting := "N/A",
            stake := "N/A", odds := "N/A", returning := "N/A",
            fills :=
              { makerSigs := [order.signature]
                orders := [{ marketHash := order.marketHash,
                             baseToken := order.baseToken,
                             totalBetSize := order.totalBetSize,
                             percentageOdds := order.percentageOdds,
                             expiry := order.expiry,
                             salt := order.salt,
                             maker := order.maker,
                             executor := order.executor,
                             isMakerBettingOutcomeOne :=
                               order.isMakerBettingOutcomeOne }]
                takerAmounts := [fillAmount]
                fillSalt := fillSalt
                beneficiary := zeroAddress
                beneficiaryType := 0
                cashOutTarget := zeroHash } }
        fillAmount := fillAmount
        fillSalt := fillSalt }

/-- fill.js `fillOrder`: the taker signature is produced by
`wallet.signTypedData(domain, types, message)` — the external signer's
structuredData mode, which signs the EIP-712 digest of the payload directly,
with no personal-message header.  The digest computation lives in ethers and
is abstracted as `typedDataDigest`. -/
def fillOrderSignature
    (typedDataDigest : FillDomain → List (String × List TypeField) →
      DetailsMsg → List ℕ)
    (ecdsaSign : List ℕ → ℕ) (order : ApiOrder)
    (takerBetAmount fillSalt : ℤ) : Except JsError ℕ :=
  (createSigningPayload order takerBetAmount fillSalt).map
    (fun p => ecdsaSign (typedDataDigest p.domain fillTypesPassed p.message))

/-! ### Cancellation: EIP-712 typed-data payload, signing and the CLI input
flow (cancel.js) -/

/-- The EIP-712 domain object built by cancel.js: a 32-byte random salt (kept
as its hex string) takes the place a verifying-contract address would have. -/
structure CancelDomain where
  name : String
  version : String
  chainId : ℕ
  salt : String
deriving DecidableEq

/-- The cancel message of primary type `Details`: just the order-hash strings
and the timestamp, with no nesting. -/
structure CancelDetailsMsg where
  orderHashes : List String
  timestamp : ℕ
deriving DecidableEq

/-- The `EIP712Domain` type definition in cancel.js
`getCancelOrderEIP712Payload`: name, version, chainId, and a `bytes32` salt
in place of a verifying contract. -/
def cancelDomainTypeFields : List TypeField :=
  [⟨"name", "string"⟩, ⟨"version", "string"⟩, ⟨"chainId", "uint256"⟩,
    ⟨"salt", "bytes32"⟩]

/-- The `Details` type definition in cancel.js
`getCancelOrderEIP712Payload`. -/
def cancelDetailsTypeFields : List TypeField :=
  [⟨"orderHashes", "string[]"⟩, ⟨"timestamp", "uint256"⟩]

/-- The `types` object of the cancel payload, in source order. -/
def cancelTypes : List (String × List TypeField) :=
  [("EIP712Domain", cancelDomainTypeFields),
    ("Details", cancelDetailsTypeFields)]

/-- The complete object returned by cancel.js
`getCancelOrderEIP712Payload`. -/
structure CancelPayload where
  types : List (String × List TypeField)
  primaryType : String
  domain : CancelDomain
  message : CancelDetailsMsg
deriving DecidableEq

/-- cancel.js `getCancelOrderEIP712Payload`: assembles the cancel typed-data
structure from the order hashes, the (per-request) salt, the timestamp and
the chain id. -/
def getCancelOrderEIP712Payload (orderHashes : List String) (salt : String)
    (timestamp : ℕ) (chainId : ℕ) : CancelPayload :=
  { types := cancelTypes
    primaryType := "Details"
    domain := { name := "CancelOrderV2SportX", version := "1.0",
                chainId := chainId, salt := salt }
    message := { orderHashes := orderHashes, timestamp := timestamp } }

/-- Failures of the cancel flow: cancel.js `createCancelOrderPayload` throws
when no private key is configured, and `cancelOrdersFromInput` throws
"No order hashes provided" when the parsed input is empty. -/
inductive CancelError where
  | missingPrivateKey
  | noOrderHashes
deriving DecidableEq

/-- The payload that cancel.js submits to the API. -/
structure CancelRequest where
  orderHashes : List String
  signature : ℕ
  salt : String
  maker : String
  timestamp : ℕ
deriving DecidableEq

/-- cancel.js `createCancelOrderPayload`: checks only that a private key is
configured (modelled by `hasKey`), generates one salt and one timestamp for
the whole request (passed in as arguments, the randomness and clock being
external), builds the typed-data payload for chain id 4162, signs it with
`wallet.signTypedData(domain, types, message)` — the structuredData mode,
digest abstracted as `typedDataDigest` — and returns the API payload.  Note
there is no emptiness check on `orderHashes`. -/
def createCancelOrderPayload (hasKey : Bool)
    (typedDataDigest : CancelDomain → List (String × List TypeField) →
      CancelDetailsMsg → List ℕ)
    (ecdsaSign : List ℕ → ℕ) (walletAddress salt : String) (timestamp : ℕ)
    (orderHashes : List String) : Except CancelError CancelRequest :=
  if hasKey then
    let payload := getCancelOrderEIP712Payload orderHashes salt timestamp 4162
    Except.ok
      { orderHashes := orderHashes
        signature := ecdsaSign (typedDataDigest payload.domain
          [("Details", cancelDetailsTypeFields)] payload.message)
        salt := salt
        maker := walletAddress
        timestamp := timestamp }
  else Except.error CancelError.missingPrivateKey

/-- JavaScript `String.prototype.split(",")` on the character list of the
input: splits at every comma; the empty input yields one empty piece. -/
def splitCommaAux : List Char → List Char → List (List Char)
  | [], acc => [acc.reverse]
  | c :: rest, acc =>
    if c = ',' then acc.reverse :: splitCommaAux rest []
    else splitCommaAux rest (c :: acc)

/-- Whitespace characters removed by JavaScript `String.prototype.trim`
(restricted to the ASCII ones that can occur in CLI input). -/
def isJsWhitespace (c : Char) : Bool :=
  c = ' ' || c = '\t' || c = '\n' || c = '\r'

/-- JavaScript `String.prototype.trim` on a character list. -/
def trimChars (cs : List Char) : List Char :=
  ((cs.dropWhile isJsWhitespace).reverse.dropWhile isJsWhitespace).reverse

/-- cancel.js `cancelOrdersFromInput`, parsing step:
`input.split(',').map(hash => hash.trim())`. -/
def parseOrderHashes (input : String) : List String :=
  (splitCommaAux input.toList []).map (fun cs => String.mk (trimChars cs))

/-- cancel.js `cancelOrdersFromInput`, data path: parses the prompted input,
throws "No order hashes provided" when the parsed list is empty or its first
element is the empty string, and otherwise hands the hashes to
`cancelOrders`, i.e. to `createCancelOrderPayload`. -/
def cancelOrdersFromInput (hasKey : Bool)
    (typedDataDigest : CancelDomain → List (String × List TypeField) →
      CancelDetailsMsg → List ℕ)
    (ecdsaSign : List ℕ → ℕ) (walletAddress salt : String) (timestamp : ℕ)
    (input : String) : Except CancelError CancelRequest :=
  let orderHashes := parseOrderHashes input
  if orderHashes = [] ∨ orderHashes.head? = some "" then
    Except.error CancelError.noOrderHashes
  else
    createCancelOrderPayload hasKey typedDataDigest ecdsaSign walletAddress
      salt timestamp orderHashes


/-! ### Auxiliary concrete values used to instantiate the abstract signer and
hash parameters in closed statements -/

/-- A stand-in for the abstract keccak-256 parameter with 32-byte output. -/
def constKeccak : List ℕ → List ℕ :=
  fun _ => List.replicate 32 0

/-- A stand-in for the abstract ECDSA signer parameter. -/
def trivialSign : List ℕ → ℕ :=
  fun _ => 0

/-- A stand-in for the abstract EIP-712 digest parameter of the fill flow. -/
def trivialFillDigest :
    FillDomain → List (String × List TypeField) → DetailsMsg → List ℕ :=
  fun _ _ _ => []

/-- A stand-in for the abstract EIP-712 digest parameter of the cancel
flow. -/
def trivialCancelDigest :
    CancelDomain → List (String × List TypeField) → CancelDetailsMsg → List ℕ :=
  fun _ _ _ => []

/-- An all-zero well-formed order, used to instantiate the order-creation
encoding theorem. -/
def zeroOrder : Order :=
  { marketHash := List.replicate 32 0, baseToken := List.replicate 20 0,
    totalBetSize := 0, percentageOdds := 0, expiry := 0, salt := 0,
    maker := List.replicate 20 0, executor := List.replicate 20 0,
    isMakerBettingOutcomeOne := true }

/-- A concrete API order at 50% odds, used to instantiate the fill payload
theorem. -/
def sampleApiOrder : ApiOrder :=
  { orderHash := "0xorder", marketHash := "0xmarket", baseToken := "0xtoken",
    totalBetSize := 1000000, percentageOdds := 5 * 10 ^ 19,
    expiry := 2209006800, salt := 7, maker := "0xmakeraddr",
    executor := "0xexecutoraddr", isMakerBettingOutcomeOne := true,
    signature := "0xsig" }

/-- The fill signing payload as the specification words it (spec section
4.2.2): domain constants name "SX Bet" / version "6.0" with the fixed chain
id and fill-hasher contract, primary type "Details", six literal "N/A"
placeholder strings, and a FillObject carrying the maker-signature array, the
mirrored order-struct array, the taker-amount array, the fill salt, and
zero-sentinel beneficiary, beneficiary type and cash-out target.  Stated
from the spec's words so that `createSigningPayload` can be proved to
produce exactly this. -/
def fillPayloadSpec (order : ApiOrder) (fillAmount fillSalt : ℤ) :
    FillSigningPayload :=
  { types := fillTypes
    primaryType := "Details"
    domain := { name := "SX Bet", version := "6.0", chainId := 4162,
                verifyingContract := "0x845a2Da2D70fEDe8474b1C8518200798c60aC364" }
    message :=
      { action := "N/A", market := "N/A", betting := "N/A", stake := "N/A",
        odds := "N/A", returning := "N/A",
        fills :=
          { makerSigs := [order.signature]
            orders := [{ marketHash := order.marketHash,
                         baseToken := order.baseToken,
                         totalBetSize := order.totalBetSize,
                         percentageOdds := order.percentageOdds,
                         expiry := order.expiry,
                         salt := order.salt,
                         maker := order.maker,
                         executor := order.executor,
                         isMakerBettingOutcomeOne :=
                           order.isMakerBettingOutcomeOne }]
            takerAmounts := [fillAmount]
            fillSalt := fillSalt
            beneficiary := zeroAddress
            beneficiaryType := 0
            cashOutTarget := zeroHash } }
    fillAmount := fillAmount
    fillSalt := fillSalt }

end SXBet

/-! ## Theorems for the claims -/

namespace SXBet

/-- C4: for every takerBetAmount and every percentageOdds with
`0 < percentageOdds < 10^20`, potentialPayout minus the stake equals
fillAmount: the stake plus the counterparty's matched fill equals the
payout. -/
theorem payout_minus_stake_eq_fill (takerBetAmount percentageOdds : ℤ)
    (ht : 0 ≤ takerBetAmount) (h0 : 0 < percentageOdds)
    (h1 : percentageOdds < 10 ^ 20) :
    (calculatePotentialPayout takerBetAmount percentageOdds).map
        (fun p => p - takerBetAmount) =
      calculateFillAmount takerBetAmount percentageOdds := by
  have hd : (0 : ℤ) < 10 ^ 20 - percentageOdds := by linarith
  have hdne : (10 : ℤ) ^ 20 - percentageOdds ≠ 0 := ne_of_gt hd
  simp only [calculatePotentialPayout, calculateFillAmount, if_neg hdne,
    Except.map]
  congr 1
  have e1 : takerBetAmount * 10 ^ 20 =
      takerBetAmount * percentageOdds +
        takerBetAmount * (10 ^ 20 - percentageOdds) := by ring
  rw [Int.tdiv_eq_ediv (mul_nonneg ht (by positivity)) hd.le,
    Int.tdiv_eq_ediv (mul_nonneg ht h0.le) hd.le, e1,
    Int.add_mul_ediv_right _ _ hdne]
  ring

/-- C4 witness: the identity instantiated at a 1 USDC taker bet at 50%
odds. -/
theorem payout_minus_stake_eq_fill_witness :
    (0 : ℤ) ≤ 1000000 ∧ (0 : ℤ) < 5 * 10 ^ 19 ∧
      (5 * 10 ^ 19 : ℤ) < 10 ^ 20 ∧
      (calculatePotentialPayout 1000000 (5 * 10 ^ 19)).map
          (fun p => p - 1000000) =
        calculateFillAmount 1000000 (5 * 10 ^ 19) :=
  ⟨by norm_num, by norm_num, by norm_num,
    payout_minus_stake_eq_fill 1000000 (5 * 10 ^ 19) (by norm_num)
      (by norm_num) (by norm_num)⟩

/-- C5 counterexample: at `percentageOdds = 0` both functions return a
numeric result — fillAmount returns 0 and potentialPayout returns the bet
amount — instead of raising any error, refuting the claim that
`percentageOdds = 0` raises. -/
theorem zero_odds_no_error_cx :
    calculateFillAmount 1000000 0 = Except.ok 0 ∧
      calculatePotentialPayout 1000000 0 = Except.ok 1000000 ∧
      calculateFillAmount 1000000 0 ≠ Except.error JsError.rangeError ∧
      calculatePotentialPayout 1000000 0 ≠ Except.error JsError.rangeError :=
  ⟨rfl, rfl, fun h => Except.noConfusion h, fun h => Except.noConfusion h⟩

/-- C5 amended: the functions raise only the BigInt division-by-zero error,
which happens exactly at `percentageOdds = 10^20`; at `percentageOdds = 0`
they return `0` and the bet amount respectively (no odds-range validation is
performed). -/
theorem fill_payout_error_behavior (betAmount : ℤ) :
    calculateFillAmount betAmount (10 ^ 20) =
        Except.error JsError.rangeError ∧
      calculatePotentialPayout betAmount (10 ^ 20) =
        Except.error JsError.rangeError ∧
      calculateFillAmount betAmount 0 = Except.ok 0 ∧
      calculatePotentialPayout betAmount 0 = Except.ok betAmount := by
  refine ⟨?_, ?_, ?_, ?_⟩
  · simp [calculateFillAmount]
  · simp [calculatePotentialPayout]
  · norm_num [calculateFillAmount, Int.zero_tdiv]
  · norm_num [calculatePotentialPayout, Int.mul_tdiv_cancel]

/-- C10: the concrete scenario — at `percentageOdds = 5 * 10^19` (50%) the
decimal odds render as "2.00"; an order of `totalBetSize = 1,000,000` base
units with `fillAmount = 0` has remaining liquidity "1.00" at 6 decimals;
and a taker bet of 1,000,000 base units yields `fillAmount = 1,000,000` and
`potentialPayout = 2,000,000`. -/
theorem concrete_scenario_values :
    calculateTakerOdds (5 * 10 ^ 19) = "2.00" ∧
      calculateRemainingTakerSpace 1000000 0 (5 * 10 ^ 19) =
        Except.ok "1.00" ∧
      calculateFillAmount 1000000 (5 * 10 ^ 19) = Except.ok 1000000 ∧
      calculatePotentialPayout 1000000 (5 * 10 ^ 19) = Except.ok 2000000 :=
  ⟨rfl, rfl, rfl, rfl⟩

/-- C6 counterexample: with `totalBetSize = 0`, `fillAmount = 1` (so
`totalBetSize - fillAmount` is negative) and `percentageOdds = 5 * 10^19`,
`calculateRemainingTakerSpace` raises no error at all: it returns the
rendered value "-0.00", refuting the claimed InvalidState failure. -/
theorem remaining_negative_no_error_cx :
    (0 : ℤ) - 1 < 0 ∧
      calculateRemainingTakerSpace 0 1 (5 * 10 ^ 19) = Except.ok "-0.00" ∧
      calculateRemainingTakerSpace 0 1 (5 * 10 ^ 19) ≠
        Except.error JsError.rangeError :=
  ⟨by norm_num, rfl, fun h => Except.noConfusion h⟩

/-- C6 amended: no error is raised when `totalBetSize - fillAmount` is
negative (the function then returns a possibly negative rendering instead);
when `0 ≤ fillAmount ≤ totalBetSize` and `0 < percentageOdds ≤ 10^20` the
raw value is `remainingStake * 10^20 / percentageOdds - remainingStake`
(flooring division, since both operands are nonnegative), it is nonnegative,
the result is that value converted to nominal units at 6 decimals rendered
to 2 decimal places, and it renders as "0.00" when
`fillAmount = totalBetSize`. -/
theorem remaining_liquidity_behavior (totalBetSize fillAmount percentageOdds : ℤ)
    (hf : 0 ≤ fillAmount) (hft : fillAmount ≤ totalBetSize)
    (h0 : 0 < percentageOdds) (h1 : percentageOdds ≤ 10 ^ 20) :
    remainingTakerSpaceRaw totalBetSize fillAmount percentageOdds =
        Except.ok ((totalBetSize - fillAmount) * 10 ^ 20 / percentageOdds -
          (totalBetSize - fillAmount)) ∧
      0 ≤ (totalBetSize - fillAmount) * 10 ^ 20 / percentageOdds -
          (totalBetSize - fillAmount) ∧
      calculateRemainingTakerSpace totalBetSize fillAmount percentageOdds =
        Except.ok (convertToNominalUnits
          ((totalBetSize - fillAmount) * 10 ^ 20 / percentageOdds -
            (totalBetSize - fillAmount)) 6) ∧
      (fillAmount = totalBetSize →
        calculateRemainingTakerSpace totalBetSize fillAmount percentageOdds =
          Except.ok "0.00") := by
  have hrs : (0 : ℤ) ≤ totalBetSize - fillAmount := by linarith
  have hnum : (0 : ℤ) ≤ (totalBetSize - fillAmount) * 10 ^ 20 :=
    mul_nonneg hrs (by positivity)
  have hne : percentageOdds ≠ 0 := ne_of_gt h0
  have hraw : remainingTakerSpaceRaw totalBetSize fillAmount percentageOdds =
      Except.ok ((totalBetSize - fillAmount) * 10 ^ 20 / percentageOdds -
        (totalBetSize - fillAmount)) := by
    simp only [remainingTakerSpaceRaw, if_neg hne,
      Int.tdiv_eq_ediv hnum h0.le]
  refine ⟨hraw, ?_, ?_, ?_⟩
  · have hle : totalBetSize - fillAmount ≤
        (totalBetSize - fillAmount) * 10 ^ 20 / percentageOdds :=
      (Int.le_ediv_iff_mul_le h0).2
        (mul_le_mul_of_nonneg_left h1 hrs)
    linarith
  · simp only [calculateRemainingTakerSpace, hraw, Except.map]
  · intro h
    subst h
    simp only [calculateRemainingTakerSpace, remainingTakerSpaceRaw,
      if_neg hne, Except.map, sub_self, zero_mul, Int.zero_tdiv]
    rfl

/-- C6 witness: a fully filled order (`fillAmount = totalBetSize`) at 50%
odds renders "0.00" remaining liquidity. -/
theorem remaining_liquidity_behavior_witness :
    (0 : ℤ) ≤ 1000000 ∧ (1000000 : ℤ) ≤ 1000000 ∧
      (0 : ℤ) < 5 * 10 ^ 19 ∧ (5 * 10 ^ 19 : ℤ) ≤ 10 ^ 20 ∧
      calculateRemainingTakerSpace 1000000 1000000 (5 * 10 ^ 19) =
        Except.ok "0.00" :=
  ⟨by norm_num, le_refl _, by norm_num, by norm_num,
    (remaining_liquidity_behavior 1000000 1000000 (5 * 10 ^ 19) (by norm_num)
      (le_refl _) (by norm_num) (by norm_num)).2.2.2 rfl⟩

/-- C7 counterexample: the function's output is a 2-decimal rendering, and
two distinct odds strictly inside `(0, 10^20)` — `10^17` and `2 * 10^17` —
both render as "1.00": the output is neither strictly greater than 1.00 nor
strictly increasing in percentageOdds. -/
theorem decimal_odds_monotonicity_cx :
    (0 : ℤ) < 10 ^ 17 ∧ (10 ^ 17 : ℤ) < 2 * 10 ^ 17 ∧
      (2 * 10 ^ 17 : ℤ) < 10 ^ 20 ∧
      calculateTakerOdds (10 ^ 17) = "1.00" ∧
      calculateTakerOdds (2 * 10 ^ 17) = "1.00" :=
  ⟨by norm_num, by norm_num, by norm_num, rfl, rfl⟩

/-- C7 amended: strict positivity and strict monotonicity hold for the exact
decimal-odds value `10^20 / (10^20 - percentageOdds)` (of which the function
returns the 2-decimal rendering — only weakly monotone, it can collapse
distinct odds to the same string); for every `percentageOdds ≥ 10^20` the
function returns the sentinel "N/A". -/
theorem decimal_odds_exact_value_behavior (p q r : ℤ) (hp0 : 0 < p)
    (hpq : p < q) (hq : q < 10 ^ 20) (hr : 10 ^ 20 ≤ r) :
    1 < (10 ^ 20 : ℚ) / (10 ^ 20 - (p : ℚ)) ∧
      (10 ^ 20 : ℚ) / (10 ^ 20 - (p : ℚ)) <
        (10 ^ 20 : ℚ) / (10 ^ 20 - (q : ℚ)) ∧
      calculateTakerOdds p = jsToFixed2 (10 ^ 20) (10 ^ 20 - p) ∧
      calculateTakerOdds r = "N/A" := by
  have hp0q : (0 : ℚ) < (p : ℚ) := by exact_mod_cast hp0
  have hpqq : ((p : ℚ)) < (q : ℚ) := by exact_mod_cast hpq
  have hqq : ((q : ℚ)) < 10 ^ 20 := by exact_mod_cast hq
  have hdq : (0 : ℚ) < 10 ^ 20 - (q : ℚ) := by linarith
  have hdp : (0 : ℚ) < 10 ^ 20 - (p : ℚ) := by linarith
  refine ⟨?_, ?_, ?_, ?_⟩
  · rw [one_lt_div hdp]
    linarith
  · rw [div_lt_div_iff_of_pos_left (by positivity) hdp hdq]
    linarith
  · have : (0 : ℤ) < 10 ^ 20 - p := by
      have : p < 10 ^ 20 := lt_trans hpq hq
      linarith
    simp only [calculateTakerOdds, if_pos this]
  · have : ¬ (0 : ℤ) < 10 ^ 20 - r := by linarith
    simp only [calculateTakerOdds, if_neg this]

/-- C7 witness: the exact-value behavior at 25%, 50% and the 10^20
boundary. -/
theorem decimal_odds_exact_value_behavior_witness :
    (0 : ℤ) < 25 * 10 ^ 18 ∧ (25 * 10 ^ 18 : ℤ) < 5 * 10 ^ 19 ∧
      (5 * 10 ^ 19 : ℤ) < 10 ^ 20 ∧ (10 ^ 20 : ℤ) ≤ 10 ^ 20 ∧
      (1 < (10 ^ 20 : ℚ) / (10 ^ 20 - ((25 * 10 ^ 18 : ℤ) : ℚ)) ∧
        (10 ^ 20 : ℚ) / (10 ^ 20 - ((25 * 10 ^ 18 : ℤ) : ℚ)) <
          (10 ^ 20 : ℚ) / (10 ^ 20 - ((5 * 10 ^ 19 : ℤ) : ℚ)) ∧
        calculateTakerOdds (25 * 10 ^ 18) =
          jsToFixed2 (10 ^ 20) (10 ^ 20 - 25 * 10 ^ 18) ∧
        calculateTakerOdds (10 ^ 20) = "N/A") :=
  ⟨by norm_num, by norm_num, by norm_num, le_refl _,
    decimal_odds_exact_value_behavior (25 * 10 ^ 18) (5 * 10 ^ 19) (10 ^ 20)
      (by norm_num) (by norm_num) (by norm_num) (le_refl _)⟩

/-- C8 counterexample: `calculateTakerOdds 0` returns "1.00", which is not
the maximum finite decimal-odds rendering: at 50% odds the function renders
"2.00", and the exact decimal-odds value at 0 is strictly below the one at
`5 * 10^19`. -/
theorem decimal_odds_zero_not_maximum_cx :
    calculateTakerOdds 0 = "1.00" ∧
      calculateTakerOdds (5 * 10 ^ 19) = "2.00" ∧
      (10 ^ 20 : ℚ) / (10 ^ 20 - 0) <
        (10 ^ 20 : ℚ) / (10 ^ 20 - 5 * 10 ^ 19) :=
  ⟨rfl, rfl, by norm_num⟩

/-- C8 amended: `calculateTakerOdds 0` does not raise and returns "1.00" —
the rendering of the formula value `10^20 / (10^20 - 0) = 1`, produced by
the same 2-decimal round-half-away-from-zero rendering as every other
in-range input, and it is the minimum (not maximum) of the decimal-odds
values over the valid range. -/
theorem decimal_odds_at_zero (p : ℤ) (hp0 : 0 < p) (hp : p < 10 ^ 20) :
    calculateTakerOdds 0 = "1.00" ∧
      calculateTakerOdds 0 = jsToFixed2 (10 ^ 20) (10 ^ 20 - 0) ∧
      (10 ^ 20 : ℚ) / (10 ^ 20 - 0) <
        (10 ^ 20 : ℚ) / (10 ^ 20 - (p : ℚ)) := by
  have hp0q : (0 : ℚ) < (p : ℚ) := by exact_mod_cast hp0
  have hpq : ((p : ℚ)) < 10 ^ 20 := by exact_mod_cast hp
  have hdp : (0 : ℚ) < 10 ^ 20 - (p : ℚ) := by linarith
  refine ⟨rfl, rfl, ?_⟩
  rw [sub_zero, div_lt_div_iff_of_pos_left (by positivity) (by positivity) hdp]
  linarith

/-- C8 witness: minimality of the rendering at 0 against 50% odds. -/
theorem decimal_odds_at_zero_witness :
    (0 : ℤ) < 5 * 10 ^ 19 ∧ (5 * 10 ^ 19 : ℤ) < 10 ^ 20 ∧
      (calculateTakerOdds 0 = "1.00" ∧
        calculateTakerOdds 0 = jsToFixed2 (10 ^ 20) (10 ^ 20 - 0) ∧
        (10 ^ 20 : ℚ) / (10 ^ 20 - 0) <
          (10 ^ 20 : ℚ) / (10 ^ 20 - ((5 * 10 ^ 19 : ℤ) : ℚ))) :=
  ⟨by norm_num, by norm_num,
    decimal_odds_at_zero (5 * 10 ^ 19) (by norm_num) (by norm_num)⟩

/-- C3: the cancellation typed-data payload has domain name
"CancelOrderV2SportX" and version "1.0" with the chain id and a single salt
(one per cancellation request, shared by the whole order-hash list) as a
`bytes32` domain field in place of a verifying-contract address; the
"Details" message is exactly the ordered order-hash list and the timestamp;
the type table has no FillObject-style nesting; and the signed request
carries the same salt. -/
theorem cancel_typed_data_payload (orderHashes : List String) (salt : String)
    (timestamp chainId : ℕ)
    (typedDataDigest : CancelDomain → List (String × List TypeField) →
      CancelDetailsMsg → List ℕ)
    (ecdsaSign : List ℕ → ℕ) (walletAddress : String) :
    getCancelOrderEIP712Payload orderHashes salt timestamp chainId =
        { types := cancelTypes
          primaryType := "Details"
          domain := { name := "CancelOrderV2SportX", version := "1.0",
                      chainId := chainId, salt := salt }
          message := { orderHashes := orderHashes, timestamp := timestamp } } ∧
      cancelTypes.map Prod.fst = ["EIP712Domain", "Details"] ∧
      cancelDomainTypeFields.map TypeField.name =
        ["name", "version", "chainId", "salt"] ∧
      cancelDetailsTypeFields.map TypeField.name =
        ["orderHashes", "timestamp"] ∧
      createCancelOrderPayload true typedDataDigest ecdsaSign walletAddress
          salt timestamp orderHashes =
        Except.ok
          { orderHashes := orderHashes
            signature := ecdsaSign (typedDataDigest
              { name := "CancelOrderV2SportX", version := "1.0",
                chainId := 4162, salt := salt }
              [("Details", cancelDetailsTypeFields)]
              { orderHashes := orderHashes, timestamp := timestamp })
            salt := salt
            maker := walletAddress
            timestamp := timestamp } :=
  ⟨rfl, rfl, rfl, rfl, rfl⟩

/-- C9 counterexample: `createCancelOrderPayload` — the function that
generates the salt and timestamp, builds the cancel typed data and invokes
the signer (the spec's signCancellation) — does not fail on an empty
order-hash list: it invokes the signer and returns a ready CancelRequest
with `orderHashes = []`. -/
theorem sign_cancellation_empty_input_cx :
    createCancelOrderPayload true trivialCancelDigest trivialSign
        "0xMakerAddr" "0xSaltValue" 1700000000 [] =
      Except.ok
        { orderHashes := [], signature := 0, salt := "0xSaltValue",
          maker := "0xMakerAddr", timestamp := 1700000000 } :=
  rfl

/-- C9 amended: the empty-input guard lives in the CLI input flow, not in
the signing function: `cancelOrdersFromInput` raises the
"No order hashes provided" error, before any signer invocation, exactly
when the parsed comma-separated input is empty or its first entry is the
empty string; otherwise the flow returns the ready-to-submit CancelRequest
with orderHashes, signature, salt, maker and timestamp.
`createCancelOrderPayload` itself performs no emptiness check. -/
theorem cancel_empty_check_in_input_flow
    (typedDataDigest : CancelDomain → List (String × List TypeField) →
      CancelDetailsMsg → List ℕ)
    (ecdsaSign : List ℕ → ℕ) (walletAddress salt : String) (timestamp : ℕ)
    (input : String) :
    (parseOrderHashes input = [] ∨
        (parseOrderHashes input).head? = some "" →
      cancelOrdersFromInput true typedDataDigest ecdsaSign walletAddress
          salt timestamp input =
        Except.error CancelError.noOrderHashes) ∧
      (¬ (parseOrderHashes input = [] ∨
          (parseOrderHashes input).head? = some "") →
        cancelOrdersFromInput true typedDataDigest ecdsaSign walletAddress
            salt timestamp input =
          Except.ok
            { orderHashes := parseOrderHashes input
              signature := ecdsaSign (typedDataDigest
                { name := "CancelOrderV2SportX", version := "1.0",
                  chainId := 4162, salt := salt }
                [("Details", cancelDetailsTypeFields)]
                { orderHashes := parseOrderHashes input,
                  timestamp := timestamp })
              salt := salt
              maker := walletAddress
              timestamp := timestamp }) := by
  constructor
  · intro h
    simp only [cancelOrdersFromInput, if_pos h]
  · intro h
    simp only [cancelOrdersFromInput, if_neg h]
    rfl

/-- C9 witness: the empty CLI input "" is rejected before signing, while the
input "a,b" is parsed to two hashes and signed. -/
theorem cancel_empty_check_in_input_flow_witness :
    cancelOrdersFromInput true trivialCancelDigest trivialSign "0xW" "0xS" 5
        "" = Except.error CancelError.noOrderHashes ∧
      cancelOrdersFromInput true trivialCancelDigest trivialSign "0xW" "0xS"
          5 "a,b" =
        Except.ok
          { orderHashes := ["a", "b"], signature := 0, salt := "0xS",
            maker := "0xW", timestamp := 5 } :=
  ⟨(cancel_empty_check_in_input_flow trivialCancelDigest trivialSign "0xW"
      "0xS" 5 "").1 (Or.inr rfl),
    (cancel_empty_check_in_input_flow trivialCancelDigest trivialSign "0xW"
      "0xS" 5 "a,b").2 (by decide)⟩

/-- The big-endian `uint256` encoding always occupies exactly 32 bytes. -/
theorem uint256BE_length (n : ℕ) : (uint256BE n).length = 32 := by
  simp [uint256BE]

/-- C1: the order-creation digest preimage is the tight concatenation of
marketHash (32 bytes), baseToken (20), totalBetSize (32-byte big-endian),
percentageOdds (32), expiry (32), salt (32), maker (20), executor (20) and
the one-byte boolean (0 or 1), 221 bytes in all for a well-formed order; the
digest is keccak-256 of that byte string, and the signature is produced by
personal-message signing over the 32-byte digest: the signer hashes the
ASCII header "\x19Ethereum Signed Message:\n32" followed by the digest (not
a typed-data signature). -/
theorem order_creation_digest_layout (keccak256 : List ℕ → List ℕ)
    (ecdsaSign : List ℕ → ℕ) (o : Order)
    (hmh : o.marketHash.length = 32) (hbt : o.baseToken.length = 20)
    (hmk : o.maker.length = 20) (hex : o.executor.length = 20)
    (hk : (keccak256 (solidityPackedOrder o)).length = 32) :
    solidityPackedOrder o =
        o.marketHash ++ o.baseToken ++ uint256BE o.totalBetSize ++
          uint256BE o.percentageOdds ++ uint256BE o.expiry ++
          uint256BE o.salt ++ o.maker ++ o.executor ++
          [boolByte o.isMakerBettingOutcomeOne] ∧
      (solidityPackedOrder o).length = 221 ∧
      (boolByte o.isMakerBettingOutcomeOne = 0 ∨
        boolByte o.isMakerBettingOutcomeOne = 1) ∧
      createOrderHash keccak256 o = keccak256 (solidityPackedOrder o) ∧
      signOrderSignature keccak256 ecdsaSign o =
        ecdsaSign (keccak256
          (asciiBytes "\x19Ethereum Signed Message:\n32" ++
            createOrderHash keccak256 o)) := by
  refine ⟨rfl, ?_, ?_, rfl, ?_⟩
  · simp only [solidityPackedOrder, List.length_append, uint256BE_length,
      List.length_cons, List.length_nil, hmh, hbt, hmk, hex]
  · cases o.isMakerBettingOutcomeOne <;> simp [boolByte]
  · show ecdsaSign (keccak256 (ethSignedMessageHeader
        (createOrderHash keccak256 o).length ++
          createOrderHash keccak256 o)) = _
    rw [show (createOrderHash keccak256 o).length = 32 from hk]
    rfl

/-- C1 witness: the layout at the all-zero well-formed order with a constant
32-byte hash and trivial signer. -/
theorem order_creation_digest_layout_witness :
    zeroOrder.marketHash.length = 32 ∧ zeroOrder.baseToken.length = 20 ∧
      zeroOrder.maker.length = 20 ∧ zeroOrder.executor.length = 20 ∧
      (constKeccak (solidityPackedOrder zeroOrder)).length = 32 ∧
      (solidityPackedOrder zeroOrder =
          zeroOrder.marketHash ++ zeroOrder.baseToken ++
            uint256BE zeroOrder.totalBetSize ++
            uint256BE zeroOrder.percentageOdds ++
            uint256BE zeroOrder.expiry ++ uint256BE zeroOrder.salt ++
            zeroOrder.maker ++ zeroOrder.executor ++
            [boolByte zeroOrder.isMakerBettingOutcomeOne] ∧
        (solidityPackedOrder zeroOrder).length = 221 ∧
        (boolByte zeroOrder.isMakerBettingOutcomeOne = 0 ∨
          boolByte zeroOrder.isMakerBettingOutcomeOne = 1) ∧
        createOrderHash constKeccak zeroOrder =
          constKeccak (solidityPackedOrder zeroOrder) ∧
        signOrderSignature constKeccak trivialSign zeroOrder =
          trivialSign (constKeccak
            (asciiBytes "\x19Ethereum Signed Message:\n32" ++
              createOrderHash constKeccak zeroOrder))) :=
  ⟨rfl, rfl, rfl, rfl, rfl,
    order_creation_digest_layout constKeccak trivialSign zeroOrder rfl rfl
      rfl rfl rfl⟩

/-- C2: for any order whose odds are not at the division-by-zero boundary,
the fill signing payload is exactly the EIP-712 structure with domain
name "SX Bet" / version "6.0" / chain id 4162 / the fill-hasher verifying
contract, primary type "Details" whose six placeholder string fields are
each the literal "N/A", and whose nested "fills" FillObject carries the
maker-signature array, the order-struct array mirroring the order-creation
field order, the taker-amount array, the fill salt, the zero-address
beneficiary, beneficiary type 0 and the zero cash-out target; and the taker
signature is the signer applied directly to the EIP-712 digest of that
domain/types/message — no personal-message header is involved. -/
theorem fill_typed_data_payload
    (typedDataDigest : FillDomain → List (String × List TypeField) →
      DetailsMsg → List ℕ)
    (ecdsaSign : List ℕ → ℕ) (order : ApiOrder)
    (takerBetAmount fillSalt : ℤ)
    (hodds : order.percentageOdds ≠ 10 ^ 20) :
    createSigningPayload order takerBetAmount fillSalt =
        Except.ok (fillPayloadSpec order
          ((takerBetAmount * order.percentageOdds).tdiv
            (10 ^ 20 - order.percentageOdds)) fillSalt) ∧
      orderTypeFields.map TypeField.name =
        ["marketHash", "baseToken", "totalBetSize", "percentageOdds",
          "expiry", "salt", "maker", "executor",
          "isMakerBettingOutcomeOne"] ∧
      fillTypesPassed.map Prod.fst = ["Details", "FillObject", "Order"] ∧
      fillOrderSignature typedDataDigest ecdsaSign order takerBetAmount
          fillSalt =
        Except.ok (ecdsaSign (typedDataDigest
          (fillPayloadSpec order
            ((takerBetAmount * order.percentageOdds).tdiv
              (10 ^ 20 - order.percentageOdds)) fillSalt).domain
          fillTypesPassed
          (fillPayloadSpec order
            ((takerBetAmount * order.percentageOdds).tdiv
              (10 ^ 20 - order.percentageOdds)) fillSalt).message)) := by
  have hdne : (10 : ℤ) ^ 20 - order.percentageOdds ≠ 0 := by
    intro h
    exact hodds (sub_eq_zero.mp h).symm
  have hfill : calculateFillAmount takerBetAmount order.percentageOdds =
      Except.ok ((takerBetAmount * order.percentageOdds).tdiv
        (10 ^ 20 - order.percentageOdds)) := by
    simp only [calculateFillAmount, if_neg hdne]
  have hpay : createSigningPayload order takerBetAmount fillSalt =
      Except.ok (fillPayloadSpec order
        ((takerBetAmount * order.percentageOdds).tdiv
          (10 ^ 20 - order.percentageOdds)) fillSalt) := by
    simp only [createSigningPayload, hfill]
    rfl
  refine ⟨hpay, rfl, rfl, ?_⟩
  simp only [fillOrderSignature, hpay, Except.map]

/-- C2 witness: the payload and signature at a concrete 50%-odds order, a
1 USDC taker bet and fill salt 42. -/
theorem fill_typed_data_payload_witness :
    sampleApiOrder.percentageOdds ≠ 10 ^ 20 ∧
      (createSigningPayload sampleApiOrder 1000000 42 =
          Except.ok (fillPayloadSpec sampleApiOrder 1000000 42) ∧
        orderTypeFields.map TypeField.name =
          ["marketHash", "baseToken", "totalBetSize", "percentageOdds",
            "expiry", "salt", "maker", "executor",
            "isMakerBettingOutcomeOne"] ∧
        fillTypesPassed.map Prod.fst = ["Details", "FillObject", "Order"] ∧
        fillOrderSignature trivialFillDigest trivialSign sampleApiOrder
            1000000 42 =
          Except.ok (trivialSign (trivialFillDigest
            (fillPayloadSpec sampleApiOrder 1000000 42).domain
            fillTypesPassed
            (fillPayloadSpec sampleApiOrder 1000000 42).message))) :=
  ⟨by decide,
    fill_typed_data_payload trivialFillDigest trivialSign sampleApiOrder
      1000000 42 (by decide)⟩

end SXBet
